import Mathlib

/-!
# Verification of the PrivacyX RAG question-answering service

A shallow embedding of `src/PrivacyX-master/main.py`: the in-memory
credential/session store (`VALID_USERS`, `sessions`), the cookie gate
`get_current_user`, the `/login`, `/signup`, `/logout` handlers, and the
`/ask` retrieval-augmented generation pipeline.

External collaborators (the sentence-transformers embedder, the Qdrant
vector index, the Gemini generation call) are passed to the pipeline as
function parameters of `Except`-typed signatures, mirroring the fact that
each call either returns a value or raises.  The pipeline additionally
returns the trace of collaborator invocations it performed, so that
"no side effects occur" claims are statements about the trace.
-/

namespace PrivacyX

/-! ## Data model -/

/-- One nearest-neighbour hit returned by the vector index.  A Qdrant hit
carries a similarity `score` and a payload map; `main.py` reads the payload
keys `"text"` and `"source"` with `payload.get(key, '')`, so the two fields
are kept as `Option String` and defaulting happens at the read site, as in
the code.  Similarity scores are modelled as rationals. -/
structure Fragment where
  payload_text : Option String
  payload_source : Option String
  score : Rat
deriving Repr, DecidableEq

/-- A question embedding: a sequence of numbers (`embed_model.encode([q])[0]`). -/
abbrev QueryVector := List Rat

/-- The mutable module-level state of `main.py`: `VALID_USERS` (username ↦
password, a Python dict modelled as an association list with first-match
lookup) and `sessions` (whose values are always `True`, so it is the set of
its keys, modelled as a list of usernames). -/
structure AuthState where
  validUsers : List (String × String)
  sessions : List String
deriving Repr, DecidableEq

/-- `VALID_USERS = {"admin": "admin123"}` and `sessions = {}` at startup. -/
def initialState : AuthState :=
  { validUsers := [("admin", "admin123")], sessions := [] }

/-- Python dict read `d.get(u)` / `d[u]` over the association-list model. -/
def dictLookup : List (String × String) → String → Option String
  | [], _ => none
  | (k, v) :: rest, u => if k = u then some v else dictLookup rest u

/-- `sessions[u] = True`: adds `u` to the key set (no change if present). -/
def sessionInsert (l : List String) (u : String) : List String :=
  if u ∈ l then l else l ++ [u]

/-- `sessions.pop(u, None)`: removes `u` from the key set if present. -/
def sessionRemove (l : List String) (u : String) : List String :=
  l.filter (fun v => v ≠ u)

/-! ## SessionGate: `get_current_user` and the auth endpoints -/

/-- Result of the `get_current_user` dependency: the username, or the
`HTTPException(status_code=401, detail="Not authenticated")` it raises. -/
inductive AuthCheck
  | ok (user : String)
  | httpError (status : Nat) (detail : String)
deriving Repr, DecidableEq

/-- `get_current_user`: reads the `username` cookie; rejects with 401 when
the cookie is absent, empty (Python `not username`), or its value is not a
key of `sessions`. -/
def get_current_user (cookie : Option String) (sessions : List String) : AuthCheck :=
  match cookie with
  | none => .httpError 401 "Not authenticated"
  | some username =>
      if username = "" ∨ username ∉ sessions then .httpError 401 "Not authenticated"
      else .ok username

/-- Response of `POST /login`: a 302 redirect to `/home` that sets the
`username` cookie, or the re-rendered login page (no cookie is set). -/
inductive LoginResponse
  | redirectHome (cookieUser : String)
  | loginPageError (msg : String)
deriving Repr, DecidableEq

/-- `POST /login`: on `username in VALID_USERS and VALID_USERS[username] ==
password`, activates the session and redirects with the cookie set;
otherwise re-renders the form and mutates nothing. -/
def login (st : AuthState) (username password : String) :
    AuthState × LoginResponse :=
  if dictLookup st.validUsers username = some password then
    ({ st with sessions := sessionInsert st.sessions username },
      .redirectHome username)
  else
    (st, .loginPageError ("❌ Invalid credentials. Please try again or sign up."))

/-- Response of `POST /signup`: a 302 redirect setting the cookie, or the
re-rendered signup page (no cookie is set). -/
inductive SignupResponse
  | redirectHome (cookieUser : String)
  | signupPageError (msg : String)
deriving Repr, DecidableEq

/-- `POST /signup`: rejects an existing username without mutating anything;
otherwise registers the credential, activates a session, sets the cookie. -/
def signup (st : AuthState) (username password : String) :
    AuthState × SignupResponse :=
  if (dictLookup st.validUsers username).isSome then
    (st, .signupPageError ("⚠️ Username already exists."))
  else
    ({ validUsers := st.validUsers ++ [(username, password)],
       sessions := sessionInsert st.sessions username },
      .redirectHome username)

/-- `GET /logout`: `sessions.pop(cookie, None)`, then a redirect to `/` that
deletes the cookie.  With no cookie (`None`) the pop is a no-op because
every key of `sessions` is a string. -/
def logout (st : AuthState) (cookie : Option String) : AuthState :=
  match cookie with
  | none => st
  | some u => { st with sessions := sessionRemove st.sessions u }

/-! ## The `/ask` pipeline -/

/-- Rendering of one retrieved fragment in the context block:
`f"{i}. {r.payload.get('text', '')}"` for `i, r in enumerate(results, 1)`. -/
def contextChunksFrom (i : Nat) : List Fragment → List String
  | [] => []
  | f :: rest =>
      (toString i ++ ". " ++ f.payload_text.getD ("")) :: contextChunksFrom (i + 1) rest

/-- The fixed instruction framing that opens the prompt. -/
def promptInstructions : String :=
  "You are a Data Protection expert AI. Use the following document context to answer the user's question:"

/-- The grounding prompt sent to the generation model, exactly as the
f-string in `ask` lays it out: instructions, CONTEXT block (the numbered
fragment list joined by `chr(10)`), QUESTION, ANSWER cue. -/
def buildPrompt (question : String) (results : List Fragment) : String :=
  promptInstructions ++ "\n\nCONTEXT:\n"
    ++ String.intercalate ("\n") (contextChunksFrom 1 results)
    ++ "\n\nQUESTION:\n" ++ question ++ "\n\nANSWER:"

/-- `{r.score:.4f}`: the score rendered with four decimal places (rounded to
the nearest ten-thousandth, half away from zero). -/
def fmtScore4 (q : Rat) : String :=
  let n : Int := if q ≥ 0 then (q * 10000 + 1/2).floor else -((-q) * 10000 + 1/2).floor
  let sign := if n < 0 then "-" else ""
  let m := n.natAbs
  let frac := toString (m % 10000)
  let pad := String.mk (List.replicate (4 - frac.length) '0')
  sign ++ toString (m / 10000) ++ "." ++ pad ++ frac

/-- One provenance line shown to the user:
`f"📄 {r.payload.get('source', '')} (score: {r.score:.4f})"`. -/
def fmtSource (f : Fragment) : String :=
  "📄 " ++ f.payload_source.getD ("") ++ " (score: " ++ fmtScore4 f.score ++ ")"

/-- One collaborator invocation performed by the `/ask` handler. -/
inductive AskEffect
  | embedCall (text : String)
  | searchCall (k : Nat)
  | generateCall
deriving Repr, DecidableEq

/-- The rendered `home.html` answer page (an HTTP 200 response). -/
structure AskSuccess where
  user : String
  question : String
  answer : String
  sources : List String
deriving Repr, DecidableEq

/-- A failed `/ask` request: the 401 raised by `get_current_user`, or an
exception escaping the handler (embedding or vector-search failure — the
code wraps neither call in a handler, so the exception aborts the request). -/
inductive AskFailure
  | notAuthenticated
  | fatal (msg : String)
deriving Repr, DecidableEq

/-- HTTP status of an `/ask` outcome: the rendered page is 200, the auth
rejection is 401, an uncaught pipeline exception is a server error. -/
def statusOf : Except AskFailure AskSuccess → Nat
  | .ok _ => 200
  | .error .notAuthenticated => 401
  | .error (.fatal _) => 500

/-- `POST /ask`.  The collaborators are parameters: `embed` is
`embed_model.encode([question])[0]`, `search` is `qdrant.search(...)` with
its `limit` argument, `generate` is `gemini_model.generate_content`; each
returns a value or raises (`Except.error`).  The handler authenticates
first (FastAPI resolves the `Depends(get_current_user)` before the body
runs), then embeds, searches with `limit=5`, builds the sources list and
the prompt, and calls the generator inside `try/except` — a generation
failure becomes the answer text `"Error: " ++ e` while the page (and its
sources list) is still rendered.  The second component is the trace of
collaborator invocations, in order. -/
def ask (embed : String → Except String QueryVector)
    (search : QueryVector → Nat → Except String (List Fragment))
    (generate : String → Except String String)
    (sessions : List String) (cookie : Option String) (question : String) :
    Except AskFailure AskSuccess × List AskEffect :=
  match get_current_user cookie sessions with
  | .httpError _ _ => (.error .notAuthenticated, [])
  | .ok user =>
      match embed question with
      | .error e => (.error (.fatal e), [.embedCall question])
      | .ok queryVector =>
          match search queryVector 5 with
          | .error e => (.error (.fatal e), [.embedCall question, .searchCall 5])
          | .ok results =>
              let sources := results.map fmtSource
              let prompt := buildPrompt question results
              let answer :=
                match generate prompt with
                | .ok t => t.trim
                | .error e => "Error: " ++ e
              (.ok { user := user, question := question,
                     answer := answer, sources := sources },
                [.embedCall question, .searchCall 5, .generateCall])

/-! ## Spec-modelled collaborators

The embedder backend and the vector index live outside this repository
(`sentence_transformers`, Qdrant); `main.py` only calls them.  Where a claim
is about their contract rather than about the handler, the contract is
modelled from the spec. -/

/-- Modelled from the spec: the Embedder collaborator (the
sentence-transformers backend, external to the repository) — "Deterministic
for a fixed model version" and "Fails with `EmbeddingError` if the text is
empty or the backing model is unavailable".  The backing model is taken as
available; the vector's contents are an arbitrary deterministic function of
the text. -/
def specEmbed (text : String) : Except String QueryVector :=
  if text = "" then .error ("EmbeddingError: empty text")
  else .ok [(text.length : Rat)]

/-- Stable insertion of a hit into a descending-by-score list: the new hit
goes before the first strictly lower score, so equal scores keep their
original relative order. -/
def insertByScore (f : Fragment) : List Fragment → List Fragment
  | [] => [f]
  | g :: rest =>
      if g.score < f.score then f :: g :: rest else g :: insertByScore f rest

/-- Stable sort of the stored hits by descending similarity score. -/
def sortByScoreDesc : List Fragment → List Fragment
  | [] => []
  | f :: rest => insertByScore f (sortByScoreDesc rest)

/-- Modelled from the spec: the VectorIndexClient collaborator (the Qdrant
backend, external to the repository) in its reachable case — "returns the
top-K nearest stored document fragments", "ordered by descending similarity
score", "length ≤ k", "ties broken by original index-store return order". -/
def qdrantSearch (index : List Fragment) (_vector : QueryVector) (k : Nat) :
    Except String (List Fragment) :=
  .ok ((sortByScoreDesc index).take k)


/-! ## Helper lemmas -/

theorem mem_sessionInsert {l : List String} {u v : String} :
    v ∈ sessionInsert l u ↔ v ∈ l ∨ v = u := by
  unfold sessionInsert
  by_cases h : u ∈ l
  · simp only [if_pos h]
    constructor
    · exact fun hv => Or.inl hv
    · rintro (hv | rfl)
      · exact hv
      · exact h
  · simp [if_neg h]

theorem dictLookup_append_isSome {l : List (String × String)}
    (e : List (String × String)) {v : String}
    (h : (dictLookup l v).isSome) : (dictLookup (l ++ e) v).isSome := by
  induction l with
  | nil => simp [dictLookup] at h
  | cons kv rest ih =>
      obtain ⟨k, w⟩ := kv
      simp only [dictLookup, List.cons_append] at h ⊢
      by_cases hk : k = v
      · simp [if_pos hk]
      · simp only [if_neg hk] at h ⊢
        exact ih h

/-! ## SessionGate theorems -/

/-- C10: per-request authentication is decided solely by cookie-value
membership in `sessions`: `get_current_user` returns the cookie's value
exactly when the cookie is present, non-empty and a key of `sessions`, and
it raises HTTP 401 otherwise.  No secret is consulted, so presenting a
logged-in user's bare username authenticates as that user. -/
theorem get_current_user_cookie_membership_only
    (cookie : Option String) (S : List String) :
    (∀ u, get_current_user cookie S = .ok u ↔
        cookie = some u ∧ u ≠ "" ∧ u ∈ S) ∧
    (get_current_user cookie S = .httpError 401 "Not authenticated" ∨
      ∃ u, get_current_user cookie S = .ok u) := by
  constructor
  · intro u
    match cookie with
    | none => simp [get_current_user]
    | some w =>
        simp only [get_current_user]
        by_cases hcond : w = "" ∨ w ∉ S
        · simp only [if_pos hcond]
          constructor
          · intro h
            exact absurd h (by simp)
          · rintro ⟨hw, hne, hmem⟩
            obtain rfl : w = u := by injection hw
            rcases hcond with h1 | h1
            · exact absurd h1 hne
            · exact absurd hmem h1
        · simp only [if_neg hcond]
          push_neg at hcond
          constructor
          · intro h
            obtain rfl : w = u := by injection h
            exact ⟨rfl, hcond.1, hcond.2⟩
          · rintro ⟨hw, _, _⟩
            obtain rfl : w = u := by injection hw
            rfl
  · match cookie with
    | none => exact Or.inl rfl
    | some w =>
        simp only [get_current_user]
        by_cases hcond : w = "" ∨ w ∉ S
        · exact Or.inl (by simp [if_pos hcond])
        · exact Or.inr ⟨w, by simp [if_neg hcond]⟩

/-- C5: signup with an already-registered username fails with the
duplicate-user error and leaves the whole state unchanged: the stored
secret is not overwritten and no session is created. -/
theorem signup_duplicate_rejected_no_mutation
    (st : AuthState) (u p : String)
    (h : (dictLookup st.validUsers u).isSome) :
    signup st u p = (st, .signupPageError ("⚠️ Username already exists.")) := by
  simp [signup, if_pos h]

/-- Witness for C5: signing up again as the pre-registered `admin` is
rejected and the initial state is untouched. -/
theorem signup_duplicate_rejected_no_mutation_witness :
    signup initialState "admin" "otherpw" =
      (initialState, .signupPageError ("⚠️ Username already exists.")) :=
  signup_duplicate_rejected_no_mutation initialState "admin" "otherpw" (by decide)

/-- C6: login with an unregistered username or a non-matching secret
creates or activates no session — the state (in particular the session
registry) is unchanged and the response is the error page, which sets no
cookie. -/
theorem login_invalid_credentials_no_session
    (st : AuthState) (u p : String)
    (h : dictLookup st.validUsers u ≠ some p) :
    login st u p =
      (st, .loginPageError ("❌ Invalid credentials. Please try again or sign up.")) := by
  simp [login, if_neg h]

/-- Witness for C6: a wrong password for `admin` against the initial state
changes nothing. -/
theorem login_invalid_credentials_no_session_witness :
    login initialState "admin" "wrongpw" =
      (initialState,
        .loginPageError ("❌ Invalid credentials. Please try again or sign up.")) :=
  login_invalid_credentials_no_session initialState "admin" "wrongpw" (by decide)

/-- Every key of the session registry is a registered credential's username. -/
def SessionsValid (st : AuthState) : Prop :=
  ∀ u ∈ st.sessions, (dictLookup st.validUsers u).isSome

/-- C7: the invariant "every active session maps to a registered
credential" holds in the initial state and is preserved by `login`,
`signup` and `logout`. -/
theorem sessions_map_to_credentials_invariant :
    SessionsValid initialState ∧
    (∀ st u p, SessionsValid st → SessionsValid (login st u p).1) ∧
    (∀ st u p, SessionsValid st → SessionsValid (signup st u p).1) ∧
    (∀ st c, SessionsValid st → SessionsValid (logout st c)) := by
  refine ⟨?_, ?_, ?_, ?_⟩
  · intro u hu
    simp [initialState] at hu
  · intro st u p hst
    unfold login
    by_cases h : dictLookup st.validUsers u = some p
    · simp only [if_pos h]
      intro v hv
      rcases mem_sessionInsert.mp hv with hv' | rfl
      · exact hst v hv'
      · simp [h]
    · simp only [if_neg h]
      exact hst
  · intro st u p hst
    unfold signup
    by_cases h : (dictLookup st.validUsers u).isSome
    · simp only [if_pos h]
      exact hst
    · simp only [if_neg h]
      intro v hv
      rcases mem_sessionInsert.mp hv with hv' | rfl
      · exact dictLookup_append_isSome _ (hst v hv')
      · have : dictLookup (st.validUsers ++ [(v, p)]) v =
            (dictLookup st.validUsers v).orElse (fun _ => some p) := by
          induction st.validUsers with
          | nil => simp [dictLookup]
          | cons kv rest ih =>
              obtain ⟨k, w⟩ := kv
              by_cases hk : k = v
              · simp [dictLookup, if_pos hk]
              · simpa [dictLookup, if_neg hk] using ih
        rw [this]
        cases hl : dictLookup st.validUsers v <;> simp [Option.orElse]
  · intro st c hst
    match c with
    | none => exact hst
    | some u =>
        intro v hv
        simp only [logout, sessionRemove, List.mem_filter] at hv
        exact hst v hv.1

/-! ## `/ask` pipeline theorems -/

/-- C1: an unauthenticated `/ask` request (no `username` cookie, or a
cookie value with no active session) fails with HTTP 401 and invokes none
of the collaborators: the invocation trace is empty, for every choice of
embed/search/generate backend. -/
theorem ask_unauthenticated_401_no_effects
    (embed : String → Except String QueryVector)
    (search : QueryVector → Nat → Except String (List Fragment))
    (generate : String → Except String String)
    (sessions : List String) (cookie : Option String) (question : String)
    (h : cookie = none ∨ ∃ u, cookie = some u ∧ u ∉ sessions) :
    ask embed search generate sessions cookie question =
      (.error .notAuthenticated, []) ∧
    statusOf (ask embed search generate sessions cookie question).1 = 401 := by
  have hgate : get_current_user cookie sessions = .httpError 401 "Not authenticated" := by
    rcases h with rfl | ⟨u, rfl, hu⟩
    · rfl
    · simp [get_current_user, hu]
  refine ⟨?_, ?_⟩ <;> simp [ask, hgate, statusOf]

/-- Witness for C1: a cookie-less request against a live session registry
is rejected with an empty trace. -/
theorem ask_unauthenticated_401_no_effects_witness :
    ask (fun t => .ok [(t.length : Rat)]) (fun _ _ => .ok []) (fun _ => .ok ("answer"))
        ["admin"] none "What is GDPR?" = (.error .notAuthenticated, []) ∧
    statusOf (ask (fun t => .ok [(t.length : Rat)]) (fun _ _ => .ok [])
        (fun _ => .ok ("answer")) ["admin"] none "What is GDPR?").1 = 401 :=
  ask_unauthenticated_401_no_effects _ _ _ ["admin"] none "What is GDPR?" (Or.inl rfl)

/-- C2: when authentication, embedding and search succeed but generation
fails with any error, the `/ask` request still completes with HTTP 200; the
answer text is `"Error: " ++ message` and the provenance list built from
the retrieved fragments is rendered intact. -/
theorem ask_generation_failure_recovered
    (embed : String → Except String QueryVector)
    (search : QueryVector → Nat → Except String (List Fragment))
    (generate : String → Except String String)
    (sessions : List String) (cookie : Option String) (question : String)
    (user : String) (qv : QueryVector) (results : List Fragment) (e : String)
    (hauth : get_current_user cookie sessions = .ok user)
    (hembed : embed question = .ok qv)
    (hsearch : search qv 5 = .ok results)
    (hgen : generate (buildPrompt question results) = .error e) :
    ask embed search generate sessions cookie question =
      (.ok { user := user, question := question,
             answer := "Error: " ++ e, sources := results.map fmtSource },
        [.embedCall question, .searchCall 5, .generateCall]) ∧
    statusOf (ask embed search generate sessions cookie question).1 = 200 := by
  have hask : ask embed search generate sessions cookie question =
      (.ok { user := user, question := question,
             answer := "Error: " ++ e, sources := results.map fmtSource },
        [.embedCall question, .searchCall 5, .generateCall]) := by
    simp [ask, hauth, hembed, hsearch, hgen]
  exact ⟨hask, by rw [hask]; rfl⟩

/-- Witness for C2: `admin` is logged in, one fragment is retrieved, the
generation backend raises; the page still renders with the error answer and
a non-empty provenance list. -/
theorem ask_generation_failure_recovered_witness :
    ask (fun _ => .ok [(1 : Rat)])
        (fun _ _ => .ok [{ payload_text := some "chunk", payload_source := some "doc.pdf",
                           score := (91 : Rat)/100 }])
        (fun _ => .error ("503 Service Unavailable"))
        ["admin"] (some "admin") "What is GDPR?" =
      (.ok { user := "admin", question := "What is GDPR?",
             answer := "Error: 503 Service Unavailable",
             sources := [fmtSource { payload_text := some "chunk",
                                     payload_source := some "doc.pdf",
                                     score := (91 : Rat)/100 }] },
        [.embedCall "What is GDPR?", .searchCall 5, .generateCall]) ∧
    statusOf (ask (fun _ => .ok [(1 : Rat)])
        (fun _ _ => .ok [{ payload_text := some "chunk", payload_source := some "doc.pdf",
                           score := (91 : Rat)/100 }])
        (fun _ => .error ("503 Service Unavailable"))
        ["admin"] (some "admin") "What is GDPR?").1 = 200 :=
  ask_generation_failure_recovered _ _ _ ["admin"] (some "admin") "What is GDPR?"
    "admin" [(1 : Rat)]
    [{ payload_text := some "chunk", payload_source := some "doc.pdf",
       score := (91 : Rat)/100 }]
    "503 Service Unavailable" (by decide) rfl rfl rfl

/-- C3: when the vector search raises (index unreachable), the `/ask`
request fails fatally — the exception propagates out of the handler (no
generation is invoked) and the request never completes normally, so an
unreachable index is never rendered as an empty provenance list. -/
theorem ask_index_unreachable_fatal
    (embed : String → Except String QueryVector)
    (search : QueryVector → Nat → Except String (List Fragment))
    (generate : String → Except String String)
    (sessions : List String) (cookie : Option String) (question : String)
    (user : String) (qv : QueryVector) (e : String)
    (hauth : get_current_user cookie sessions = .ok user)
    (hembed : embed question = .ok qv)
    (hsearch : search qv 5 = .error e) :
    ask embed search generate sessions cookie question =
      (.error (.fatal e), [.embedCall question, .searchCall 5]) ∧
    (∀ s, (ask embed search generate sessions cookie question).1 ≠ .ok s) := by
  have hask : ask embed search generate sessions cookie question =
      (.error (.fatal e), [.embedCall question, .searchCall 5]) := by
    simp [ask, hauth, hembed, hsearch]
  exact ⟨hask, fun s => by rw [hask]; simp⟩

/-- Witness for C3: `admin` is logged in and the index raises a connection
error; the request aborts instead of rendering an empty result page. -/
theorem ask_index_unreachable_fatal_witness :
    ask (fun _ => .ok [(1 : Rat)]) (fun _ _ => .error ("connection refused"))
        (fun _ => .ok ("answer")) ["admin"] (some "admin") "What is GDPR?" =
      (.error (.fatal "connection refused"),
        [.embedCall "What is GDPR?", .searchCall 5]) ∧
    (∀ s, (ask (fun _ => .ok [(1 : Rat)]) (fun _ _ => .error ("connection refused"))
        (fun _ => .ok ("answer")) ["admin"] (some "admin") "What is GDPR?").1 ≠ .ok s) :=
  ask_index_unreachable_fatal _ _ _ ["admin"] (some "admin") "What is GDPR?"
    "admin" [(1 : Rat)] "connection refused" (by decide) rfl rfl

/-- C9: an authenticated `/ask` request whose question text is empty fails
fatally at the embedding step (modelled embedder contract: empty text is an
`EmbeddingError`): no search, no prompt construction, no generation. -/
theorem ask_empty_question_embedding_fatal
    (search : QueryVector → Nat → Except String (List Fragment))
    (generate : String → Except String String)
    (sessions : List String) (cookie : Option String) (user : String)
    (hauth : get_current_user cookie sessions = .ok user) :
    ask specEmbed search generate sessions cookie "" =
      (.error (.fatal "EmbeddingError: empty text"), [.embedCall ""]) ∧
    (∀ k, AskEffect.searchCall k ∉ (ask specEmbed search generate sessions cookie "").2) ∧
    AskEffect.generateCall ∉ (ask specEmbed search generate sessions cookie "").2 := by
  have hask : ask specEmbed search generate sessions cookie "" =
      (.error (.fatal "EmbeddingError: empty text"), [.embedCall ""]) := by
    simp [ask, hauth, specEmbed]
  refine ⟨hask, ?_, ?_⟩
  · intro k
    rw [hask]
    simp
  · rw [hask]
    simp

/-- Witness for C9: logged-in `admin` posts an empty question; the request
dies at the embedder and the trace shows nothing after the embed call. -/
theorem ask_empty_question_embedding_fatal_witness :
    ask specEmbed (fun _ _ => .ok []) (fun _ => .ok ("answer")) ["admin"] (some "admin") "" =
      (.error (.fatal "EmbeddingError: empty text"), [.embedCall ""]) ∧
    (∀ k, AskEffect.searchCall k ∉
      (ask specEmbed (fun _ _ => .ok []) (fun _ => .ok ("answer"))
        ["admin"] (some "admin") "").2) ∧
    AskEffect.generateCall ∉
      (ask specEmbed (fun _ _ => .ok []) (fun _ => .ok ("answer"))
        ["admin"] (some "admin") "").2 :=
  ask_empty_question_embedding_fatal _ _ ["admin"] (some "admin") "admin" (by decide)

/-! ## PromptBuilder theorems -/

theorem contextChunksFrom_congr (n : Nat) {f1 f2 : List Fragment}
    (h : f1.map Fragment.payload_text = f2.map Fragment.payload_text) :
    contextChunksFrom n f1 = contextChunksFrom n f2 := by
  induction f1 generalizing f2 n with
  | nil =>
      have : f2 = [] := by
        cases f2 with
        | nil => rfl
        | cons g rest => simp at h
      rw [this]
  | cons f rest ih =>
      cases f2 with
      | nil => simp at h
      | cons g rest2 =>
          simp only [List.map_cons, List.cons.injEq] at h
          simp only [contextChunksFrom, h.1, ih (n + 1) h.2]

theorem contextChunksFrom_getIdx (n i : Nat) (l : List Fragment) :
    (contextChunksFrom n l)[i]? =
      l[i]?.map (fun f => toString (n + i) ++ ". " ++ f.payload_text.getD ("")) := by
  induction l generalizing n i with
  | nil => simp [contextChunksFrom]
  | cons f rest ih =>
      cases i with
      | zero => simp [contextChunksFrom]
      | succ j =>
          simp only [contextChunksFrom, List.getElem?_cons_succ]
          rw [ih (n + 1) j]
          have harith : n + 1 + j = n + (j + 1) := by omega
          rw [harith]

/-- C4: prompt construction is a pure function of the question and the
ordered fragment texts: fragments equal in text (whatever their scores and
sources) yield the identical prompt; the context block is their 1-based
numbered list of fragment text only; and the prompt is structured as
instructions, then context, then question, then the answer cue. -/
theorem buildPrompt_pure_numbered_structured
    (q : String) (f1 f2 : List Fragment)
    (h : f1.map Fragment.payload_text = f2.map Fragment.payload_text) :
    buildPrompt q f1 = buildPrompt q f2 ∧
    (∀ i, (contextChunksFrom 1 f1)[i]? =
      f1[i]?.map (fun f => toString (i + 1) ++ ". " ++ f.payload_text.getD (""))) ∧
    buildPrompt q f1 =
      promptInstructions ++ "\n\nCONTEXT:\n"
        ++ String.intercalate ("\n") (contextChunksFrom 1 f1)
        ++ "\n\nQUESTION:\n" ++ q ++ "\n\nANSWER:" := by
  refine ⟨?_, ?_, rfl⟩
  · unfold buildPrompt
    rw [contextChunksFrom_congr 1 h]
  · intro i
    rw [contextChunksFrom_getIdx 1 i f1, Nat.add_comm 1 i]

/-- Witness for C4: two single-fragment lists with the same text but
different score and source produce the same prompt, numbered from 1. -/
theorem buildPrompt_pure_numbered_structured_witness :
    buildPrompt "What is GDPR?"
        [{ payload_text := some "chunk", payload_source := some "a.pdf", score := (1 : Rat)/2 }] =
      buildPrompt "What is GDPR?"
        [{ payload_text := some "chunk", payload_source := none, score := (9 : Rat)/10 }] ∧
    (∀ i, (contextChunksFrom 1
        [{ payload_text := some "chunk", payload_source := some "a.pdf",
           score := (1 : Rat)/2 }])[i]? =
      ([{ payload_text := some "chunk", payload_source := some "a.pdf",
          score := (1 : Rat)/2 }] : List Fragment)[i]?.map
        (fun f => toString (i + 1) ++ ". " ++ f.payload_text.getD (""))) ∧
    buildPrompt "What is GDPR?"
        [{ payload_text := some "chunk", payload_source := some "a.pdf", score := (1 : Rat)/2 }] =
      promptInstructions ++ "\n\nCONTEXT:\n"
        ++ String.intercalate ("\n") (contextChunksFrom 1
            [{ payload_text := some "chunk", payload_source := some "a.pdf",
               score := (1 : Rat)/2 }])
        ++ "\n\nQUESTION:\n" ++ "What is GDPR?" ++ "\n\nANSWER:" :=
  buildPrompt_pure_numbered_structured "What is GDPR?"
    [{ payload_text := some "chunk", payload_source := some "a.pdf", score := (1 : Rat)/2 }]
    [{ payload_text := some "chunk", payload_source := none, score := (9 : Rat)/10 }]
    rfl

/-! ## Top-K retrieval theorems -/

theorem mem_insertByScore {f g : Fragment} {l : List Fragment}
    (h : g ∈ insertByScore f l) : g = f ∨ g ∈ l := by
  induction l with
  | nil => simpa [insertByScore] using h
  | cons x rest ih =>
      unfold insertByScore at h
      by_cases hx : x.score < f.score
      · rw [if_pos hx] at h
        rcases List.mem_cons.mp h with rfl | h'
        · exact Or.inl rfl
        · exact Or.inr h'
      · rw [if_neg hx] at h
        rcases List.mem_cons.mp h with rfl | h'
        · exact Or.inr (List.mem_cons_self _ _)
        · rcases ih h' with rfl | h''
          · exact Or.inl rfl
          · exact Or.inr (List.mem_cons_of_mem _ h'')

theorem pairwise_insertByScore {f : Fragment} {l : List Fragment}
    (h : l.Pairwise (fun a b => b.score ≤ a.score)) :
    (insertByScore f l).Pairwise (fun a b => b.score ≤ a.score) := by
  induction l with
  | nil => simp [insertByScore]
  | cons x rest ih =>
      rcases List.pairwise_cons.mp h with ⟨hx, hrest⟩
      unfold insertByScore
      by_cases hxf : x.score < f.score
      · rw [if_pos hxf]
        refine List.pairwise_cons.mpr ⟨?_, h⟩
        intro y hy
        rcases List.mem_cons.mp hy with rfl | hy'
        · exact le_of_lt hxf
        · exact le_trans (hx y hy') (le_of_lt hxf)
      · rw [if_neg hxf]
        refine List.pairwise_cons.mpr ⟨?_, ih hrest⟩
        intro y hy
        rcases mem_insertByScore hy with rfl | hy'
        · exact le_of_not_lt hxf
        · exact hx y hy'

theorem pairwise_sortByScoreDesc (l : List Fragment) :
    (sortByScoreDesc l).Pairwise (fun a b => b.score ≤ a.score) := by
  induction l with
  | nil => simp [sortByScoreDesc]
  | cons f rest ih => exact pairwise_insertByScore ih

/-- C8: the `/ask` handler always passes `limit = 5` to the vector search —
the trace records a search call with k = 5 and with no other k — and the
modelled index search returns at most k fragments in non-increasing score
order. -/
theorem ask_requests_exactly_five_topk
    (embed : String → Except String QueryVector)
    (search : QueryVector → Nat → Except String (List Fragment))
    (generate : String → Except String String)
    (sessions : List String) (cookie : Option String) (question : String)
    (user : String) (qv : QueryVector)
    (hauth : get_current_user cookie sessions = .ok user)
    (hembed : embed question = .ok qv) :
    (AskEffect.searchCall 5 ∈ (ask embed search generate sessions cookie question).2 ∧
      ∀ k, AskEffect.searchCall k ∈ (ask embed search generate sessions cookie question).2 →
        k = 5) ∧
    (∀ (index : List Fragment) (v : QueryVector) (k : Nat) (results : List Fragment),
      qdrantSearch index v k = .ok results →
        results.length ≤ k ∧ results.Pairwise (fun a b => b.score ≤ a.score)) := by
  constructor
  · cases hs : search qv 5 with
    | error e =>
        have hask : (ask embed search generate sessions cookie question).2 =
            [.embedCall question, .searchCall 5] := by
          simp [ask, hauth, hembed, hs]
        rw [hask]
        refine ⟨by simp, ?_⟩
        intro k hk
        simp only [List.mem_cons, List.mem_singleton] at hk
        rcases hk with hk | hk | hk
        · exact absurd hk (by simp)
        · injection hk
        · simp at hk
    | ok results =>
        have hask : (ask embed search generate sessions cookie question).2 =
            [.embedCall question, .searchCall 5, .generateCall] := by
          simp [ask, hauth, hembed, hs]
        rw [hask]
        refine ⟨by simp, ?_⟩
        intro k hk
        simp only [List.mem_cons, List.mem_singleton] at hk
        rcases hk with hk | hk | hk | hk
        · exact absurd hk (by simp)
        · injection hk
        · simp at hk
        · simp at hk
  · intro index v k results hq
    have hres : results = (sortByScoreDesc index).take k := by
      have := hq
      simp only [qdrantSearch, Except.ok.injEq] at this
      exact this.symm
    rw [hres]
    constructor
    · exact List.length_take_le k (sortByScoreDesc index)
    · exact (pairwise_sortByScoreDesc index).sublist (List.take_sublist k (sortByScoreDesc index))

/-- Witness for C8: the worked scenario — `admin` asks with an index of
three fragments scored 0.91, 0.87, 0.80; the trace shows the single k = 5
search call, and the modelled search returns them all, sorted. -/
theorem ask_requests_exactly_five_topk_witness :
    (AskEffect.searchCall 5 ∈
        (ask (fun _ => .ok [(1 : Rat)]) (qdrantSearch
            [{ payload_text := some "A", payload_source := some "a", score := (91 : Rat)/100 },
             { payload_text := some "B", payload_source := some "b", score := (87 : Rat)/100 },
             { payload_text := some "C", payload_source := some "c", score := (80 : Rat)/100 }])
          (fun _ => .ok ("answer")) ["admin"] (some "admin") "What is GDPR?").2 ∧
      ∀ k, AskEffect.searchCall k ∈
        (ask (fun _ => .ok [(1 : Rat)]) (qdrantSearch
            [{ payload_text := some "A", payload_source := some "a", score := (91 : Rat)/100 },
             { payload_text := some "B", payload_source := some "b", score := (87 : Rat)/100 },
             { payload_text := some "C", payload_source := some "c", score := (80 : Rat)/100 }])
          (fun _ => .ok ("answer")) ["admin"] (some "admin") "What is GDPR?").2 → k = 5) ∧
    (∀ (index : List Fragment) (v : QueryVector) (k : Nat) (results : List Fragment),
      qdrantSearch index v k = .ok results →
        results.length ≤ k ∧ results.Pairwise (fun a b => b.score ≤ a.score)) :=
  ask_requests_exactly_five_topk (fun _ => .ok [(1 : Rat)])
    (qdrantSearch
      [{ payload_text := some "A", payload_source := some "a", score := (91 : Rat)/100 },
       { payload_text := some "B", payload_source := some "b", score := (87 : Rat)/100 },
       { payload_text := some "C", payload_source := some "c", score := (80 : Rat)/100 }])
    (fun _ => .ok ("answer")) ["admin"] (some "admin") "What is GDPR?" "admin" [(1 : Rat)]
    (by decide) rfl

end PrivacyX
